import Mathlib

/-!
# Verification of the MIDI server (`midi_server.py`)

A shallow embedding of the MIDI port manager and device-protocol bridge from
`src/modules/audio-control/modules/launch-control-xl3/midi-server/midi_server.py`,
together with theorems settling the specification claims about it.

Modelling conventions:
* MIDI messages are `List Nat` (byte values).
* `queue.Queue` is modelled as a `List` (FIFO: `put` appends at the tail,
  `get` removes the head).
* Time is modelled as `Nat`; the future arrivals on an input port's queue are
  given as an environment `List (Nat × List Nat)` of (arrival time, bytes)
  pairs, sorted by time.
* Python exceptions are modelled with `Except String`.
-/

namespace MidiServerModel

/-- A MIDI byte-frame as handled by the server: an ordered list of byte values. -/
abbrev Msg := List Nat

/-- `port_type` field of `MidiPort`: the string `'input'` or `'output'`. -/
inductive PortType where
  | input
  | output
deriving DecidableEq, Repr

/-- Embedding of the `MidiPort` object state (`MidiPort.__init__`):
`port_name`, `port_type`, `midi_obj` (modelled by the flag `has_midi_obj`,
i.e. `midi_obj is not None`), `port_index`, `message_queue` (modelled as the
list `queue`, head = oldest), and `is_open`. -/
structure MidiPort where
  port_name : String
  port_type : PortType
  has_midi_obj : Bool
  port_index : Option Nat
  queue : List Msg
  is_open : Bool
deriving DecidableEq, Repr

/-- `MidiPort.__init__(port_name, port_type)`: fresh object with
`midi_obj = None`, `port_index = None`, an empty `message_queue`, and
`is_open = False`. -/
def MidiPort.new (port_name : String) (port_type : PortType) : MidiPort :=
  { port_name := port_name
    port_type := port_type
    has_midi_obj := false
    port_index := none
    queue := []
    is_open := false }

/-- Python's `needle in hay` substring test on strings. -/
def strContains (hay needle : String) : Bool :=
  hay.data.tails.any (fun t => needle.data.isPrefixOf t)

/-- The hardware enumeration returned by the rtmidi driver:
`MidiIn().get_ports()` and `MidiOut().get_ports()`. -/
structure HardwareEnv where
  inputs : List String
  outputs : List String
deriving DecidableEq, Repr

/-- The `for i, port in enumerate(ports): if self.port_name in port: ...` scan
in `MidiPort.open`: index of the first hardware port whose name contains the
requested name as a substring. -/
def findPortIndex (name : String) : List String → Nat → Option Nat
  | [], _ => none
  | p :: rest, i => if strContains p name then some i else findPortIndex name rest (i + 1)

/-- Embedding of `MidiPort.open`: resolves `port_name` against the hardware
port list matching `port_type`; raises `ValueError` (modelled as
`Except.error`) when no hardware name contains `port_name`; on success binds
the index, acquires the hardware object and sets `is_open = True`.  (In the
source the failed object still holds a fresh `midi_obj`, but every caller
discards the object when `open` raises, so the error case carries no state.) -/
def MidiPort.openPort (p : MidiPort) (env : HardwareEnv) : Except String MidiPort :=
  let hw := match p.port_type with
    | PortType.input => env.inputs
    | PortType.output => env.outputs
  match findPortIndex p.port_name hw 0 with
  | none => Except.error ("Port '" ++ p.port_name ++ "' not found")
  | some i =>
      Except.ok { p with has_midi_obj := true, port_index := some i, is_open := true }

/-- Embedding of `MidiPort.close`: `if self.midi_obj: close_port();
is_open = False`.  When `midi_obj` is `None` nothing happens. -/
def MidiPort.closePort (p : MidiPort) : MidiPort :=
  if p.has_midi_obj then { p with is_open := false } else p

/-- Embedding of `MidiPort.send`: raises `ValueError("Cannot send on input
port")` unless `port_type == 'output'`, then `ValueError("Port is not open")`
unless `is_open`; otherwise hands the bytes to the driver unmodified
(`midi_obj.send_message(message)`), returned here as the `ok` payload so that
theorems can speak about exactly which bytes reach the hardware. -/
def MidiPort.send (p : MidiPort) (message : Msg) : Except String Msg :=
  if p.port_type ≠ PortType.output then Except.error "Cannot send on input port"
  else if p.is_open = false then Except.error "Port is not open"
  else Except.ok message

/-- Embedding of `MidiPort._on_message`: the rtmidi callback receives
`midi_event = (message, delta_time)` and executes
`self.message_queue.put(list(message))` — only the byte list is enqueued. -/
def MidiPort.on_message (queue : List Msg) (midi_event : Msg × Nat) : List Msg :=
  queue ++ [midi_event.1]

/-- The `while True: msg = self.message_queue.get(...)` loop of
`MidiPort.get_messages` restricted to the already-queued elements: each
iteration removes the queue head and appends it to `messages`, until
`queue.Empty` breaks the loop. -/
def getLoop (messages : List Msg) : List Msg → List Msg × List Msg
  | [] => (messages, [])
  | m :: rest => getLoop (messages ++ [m]) rest

theorem getLoop_eq (acc q : List Msg) : getLoop acc q = (acc ++ q, []) := by
  induction q generalizing acc with
  | nil => simp [getLoop]
  | cons m rest ih => simp [getLoop, ih]

/-! ## Interleaving arrivals with drains (claim C1)

At the `MidiServer` level every drain runs under `self.lock`, and the rtmidi
callback delivers messages one at a time, so an execution history of one input
port is a sequence of atomic events: a hardware arrival
(`MidiPort._on_message`) or a drain (`MidiPort.get_messages`, which removes
everything present).  `runTrace` folds such a history over the queue,
recording each drain's output. -/

/-- One atomic event on an input port's queue. -/
inductive PortEvent where
  | arrive (m : Msg)
  | drain
deriving DecidableEq, Repr

/-- Run a history of arrivals and drains against a queue; returns the list of
drain outputs (in drain order) and the final queue content. -/
def runTrace : List PortEvent → List Msg → List (List Msg) × List Msg
  | [], q => ([], q)
  | PortEvent.arrive m :: es, q => runTrace es (MidiPort.on_message q (m, 0))
  | PortEvent.drain :: es, q =>
      let rest := runTrace es (getLoop [] q).2
      ((getLoop [] q).1 :: rest.1, rest.2)

/-- The messages a history delivers, in arrival order. -/
def arrivalsOf (es : List PortEvent) : List Msg :=
  es.filterMap (fun e => match e with
    | PortEvent.arrive m => some m
    | PortEvent.drain => none)

/-- C1: Messages delivered to an input port are observed by drain in strict
arrival order, each exactly once, across any interleaving of drain calls with
arrivals: concatenating all drain outputs and the messages still queued yields
exactly the initial queue followed by the arrivals, in order — no message is
duplicated, dropped, or reordered. -/
theorem drain_exactly_once_fifo (es : List PortEvent) (q : List Msg) :
    List.flatten (runTrace es q).1 ++ (runTrace es q).2 = q ++ arrivalsOf es := by
  induction es generalizing q with
  | nil => simp [runTrace, arrivalsOf]
  | cons e es ih =>
    cases e with
    | arrive m =>
      simp [runTrace, arrivalsOf, MidiPort.on_message, List.filterMap] at *
      rw [ih]
      simp [MidiPort.on_message]
    | drain =>
      simp [runTrace, arrivalsOf, getLoop_eq] at *
      rw [ih]
      simp [arrivalsOf]

/-! ## `send` on an input port (claim C7) -/

/-- C7: `send` on an Input-direction handle always fails with the
`InvalidDirection` error (`"Cannot send on input port"`), regardless of open
state, and forwards no bytes to the driver (no `ok` payload exists). -/
theorem send_input_invalid_direction (p : MidiPort) (message : Msg)
    (h : p.port_type = PortType.input) :
    p.send message = Except.error "Cannot send on input port" ∧
      ∀ out : Msg, p.send message ≠ Except.ok out := by
  have hne : p.port_type ≠ PortType.output := by
    rw [h]; intro hc; cases hc
  constructor
  · simp [MidiPort.send, hne]
  · intro out
    simp [MidiPort.send, hne]

/-- Witness for C7 at a concrete input: an *open* input port (so the failure
is due to direction, not open state) rejects a send and forwards nothing. -/
theorem send_input_invalid_direction_witness :
    (MidiPort.send
        { port_name := "LCXL3 1 MIDI Out", port_type := PortType.input,
          has_midi_obj := true, port_index := some 0, queue := [],
          is_open := true } [144, 60, 127])
      = Except.error "Cannot send on input port" ∧
    ∀ out : Msg,
      (MidiPort.send
        { port_name := "LCXL3 1 MIDI Out", port_type := PortType.input,
          has_midi_obj := true, port_index := some 0, queue := [],
          is_open := true } [144, 60, 127]) ≠ Except.ok out :=
  send_input_invalid_direction _ _ rfl

/-! ## Timed drain semantics (claim C3)

`MidiPort.get_messages(timeout)` computes `deadline = time.time() + timeout`
and loops `msg = self.message_queue.get(timeout=remaining)` with
`remaining = max(0, deadline - now)` (`0` when `timeout == 0`), breaking only
when `queue.Empty` is raised.  With `timeout == 0` every `get` is an immediate
poll, so the loop drains the queued messages and returns at once.  With
`timeout > 0` a `get` either returns the next message (immediately if queued,
at its arrival time if it arrives before the deadline) or raises `Empty` once
the deadline has passed; hence the loop keeps collecting every message that
arrives before the deadline and only returns once the deadline has elapsed. -/

/-- The blocking phase of the `get_messages` loop after the initially queued
messages are drained: each future arrival strictly before the deadline is
received and appended; the first `get` that finds nothing left before the
deadline raises `queue.Empty` at the deadline, ending the loop.  Returns the
collected messages and the time at which the loop returns. -/
def waitLoop (deadline : Nat) : List (Nat × Msg) → List Msg × Nat
  | [] => ([], deadline)
  | (t, m) :: rest =>
      if t < deadline then
        let r := waitLoop deadline rest
        (m :: r.1, r.2)
      else ([], deadline)

theorem waitLoop_returns_at_deadline (deadline : Nat) (arrivals : List (Nat × Msg)) :
    (waitLoop deadline arrivals).2 = deadline := by
  induction arrivals with
  | nil => rfl
  | cons a rest ih =>
    obtain ⟨t, m⟩ := a
    by_cases h : t < deadline
    · simp [waitLoop, h, ih]
    · simp [waitLoop, h]

/-- Embedding of `MidiPort.get_messages(timeout)` with explicit time: `start`
is the value of `time.time()` at entry, `queued` the messages already in
`message_queue`, and `arrivals` the (time, bytes) pairs the hardware will
deliver later, sorted by time.  Returns the messages collected and the time at
which the call returns. -/
def getMessagesTimed (start timeout : Nat) (queued : List Msg)
    (arrivals : List (Nat × Msg)) : List Msg × Nat :=
  if timeout = 0 then ((getLoop [] queued).1, start)
  else
    let r := waitLoop (start + timeout) arrivals
    ((getLoop [] queued).1 ++ r.1, r.2)

/-- C3 counterexample: with `timeout = 10` and a single message arriving at
time `3 < 10`, `get_messages` does return that message, but only at time
`10 = start + timeout` — the full deadline — not at (roughly) the arrival
time `3`: the loop issues another blocking `get` after each message and only
breaks when a `get` times out. -/
theorem drain_waits_full_deadline_counterexample :
    getMessagesTimed 0 10 [] [(3, [144, 60, 127])] = ([[144, 60, 127]], 10) ∧
      (10 : Nat) ≠ 3 := by
  constructor
  · rfl
  · decide

/-- C3 amended: `get_messages(timeout = 0)` on an empty inbox returns an empty
sequence immediately (at `start`); `get_messages(timeout = T > 0)` on an inbox
receiving exactly one message at time `t < start + T` returns that message,
but only once the full deadline `start + T` has elapsed — the call never
returns early upon a message's arrival. -/
theorem drain_timeout_semantics (start T t : Nat) (m : Msg)
    (hT : 0 < T) (ht : t < start + T) :
    getMessagesTimed start 0 [] [] = ([], start) ∧
      getMessagesTimed start T [] [(t, m)] = ([m], start + T) := by
  constructor
  · rfl
  · have hT0 : T ≠ 0 := Nat.pos_iff_ne_zero.mp hT
    simp [getMessagesTimed, hT0, waitLoop, ht, getLoop]

/-- Witness for C3 amended at `start = 0`, `T = 10`, `t = 3`. -/
theorem drain_timeout_semantics_witness :
    getMessagesTimed 0 0 [] [] = ([], 0) ∧
      getMessagesTimed 0 10 [] [(3, [240, 247])] = ([[240, 247]], 0 + 10) :=
  drain_timeout_semantics 0 10 3 [240, 247] (by decide) (by decide)

/-! ## The port registry (`MidiServer`) -/

/-- The `self.ports: Dict[str, MidiPort]` mapping, modelled as an association
list with at most one entry per key (Python `dict` assignment replaces in
place, `del` removes the single entry). -/
structure MidiServer where
  ports : List (String × MidiPort)
deriving DecidableEq, Repr

/-- `port_id in self.ports` / `self.ports[port_id]`: the entry bound to a key,
if any. -/
def MidiServer.lookupPort (s : MidiServer) (port_id : String) : Option MidiPort :=
  (s.ports.find? (fun kv => kv.1 == port_id)).map (fun kv => kv.2)

/-- `self.ports[port_id] = port`: dict assignment — replace the entry for the
key if present, else append a new one. -/
def updEntries : List (String × MidiPort) → String → MidiPort → List (String × MidiPort)
  | [], port_id, p => [(port_id, p)]
  | (k, v) :: rest, port_id, p =>
      if k == port_id then (k, p) :: rest else (k, v) :: updEntries rest port_id p

/-- Registry update as an operation on `MidiServer`. -/
def MidiServer.setPort (s : MidiServer) (port_id : String) (p : MidiPort) : MidiServer :=
  { ports := updEntries s.ports port_id p }

/-- `del self.ports[port_id]`: remove the entry for a key. -/
def delEntries : List (String × MidiPort) → String → List (String × MidiPort)
  | [], _ => []
  | (k, v) :: rest, port_id =>
      if k == port_id then rest else (k, v) :: delEntries rest port_id

theorem lookupPort_setPort_self (s : MidiServer) (port_id : String) (p : MidiPort) :
    (s.setPort port_id p).lookupPort port_id = some p := by
  show (List.find? _ (updEntries s.ports port_id p)).map _ = some p
  induction s.ports with
  | nil => simp [updEntries, List.find?]
  | cons kv rest ih =>
    obtain ⟨k, v⟩ := kv
    by_cases hk : k == port_id
    · simp [updEntries, hk, List.find?]
    · simp only [updEntries, hk, if_false, Bool.false_eq_true]
      rw [List.find?]
      simp only [hk, Bool.false_eq_true, if_false]
      exact ih

/-- Embedding of `MidiServer.open_port` (runs under `self.lock`): if the
identifier is already bound, the old handle is closed in place — the map still
references the same, now-closed object.  A fresh `MidiPort` is then
constructed and opened; on success it is stored under the identifier and
`True` is returned, on failure (`except Exception`) the map is left as it is
and `False` is returned. -/
def MidiServer.open_port (s : MidiServer) (env : HardwareEnv)
    (port_id port_name : String) (port_type : PortType) : MidiServer × Bool :=
  let s1 := match s.lookupPort port_id with
    | some old => s.setPort port_id old.closePort
    | none => s
  match (MidiPort.new port_name port_type).openPort env with
  | Except.ok opened => (s1.setPort port_id opened, true)
  | Except.error _ => (s1, false)

/-- Embedding of `MidiServer.close_port` (runs under `self.lock`): closes and
removes the entry when present, reporting whether one existed. -/
def MidiServer.close_port (s : MidiServer) (port_id : String) : MidiServer × Bool :=
  match s.lookupPort port_id with
  | some _ => ({ ports := delEntries s.ports port_id }, true)
  | none => (s, false)

/-- Embedding of `MidiServer.send_message` (runs under `self.lock`): `False`
when the identifier is unbound; otherwise delegates to `MidiPort.send`,
converting a raised `ValueError` into `False` (`except Exception`). -/
def MidiServer.send_message (s : MidiServer) (port_id : String) (message : Msg) :
    MidiServer × Bool :=
  match s.lookupPort port_id with
  | none => (s, false)
  | some p =>
      match p.send message with
      | Except.ok _ => (s, true)
      | Except.error _ => (s, false)

/-- Embedding of `MidiServer.get_messages` (runs under `self.lock`): an empty
list when the identifier is unbound (returned immediately, at `start`);
otherwise delegates to the port's timed drain, which empties the port's queue.
Returns the new registry, the drained messages, and the return time. -/
def MidiServer.get_messages (s : MidiServer) (port_id : String)
    (timeout start : Nat) (arrivals : List (Nat × Msg)) :
    MidiServer × List Msg × Nat :=
  match s.lookupPort port_id with
  | none => (s, [], start)
  | some p =>
      let r := getMessagesTimed start timeout p.queue arrivals
      (s.setPort port_id { p with queue := [] }, r.1, r.2)

/-! ## Replacement semantics of `open_port` (claims C2 and C10) -/

/-- C2 counterexample: the second open of a bound identifier does *not* always
leave the map referring to the new handle.  Open `"midi_in"` against hardware
`["LCXL3 1 MIDI Out"]`, then open `"midi_in"` again with a name matching no
hardware port: the re-open reports failure and the registry still maps
`"midi_in"` to the *old* handle (same `port_name` and bound index), merely
closed — the old handle remains reachable. -/
theorem reopen_failure_keeps_old_handle_counterexample :
    (let env : HardwareEnv := ⟨["LCXL3 1 MIDI Out"], []⟩
     let s1 := (MidiServer.open_port ⟨[]⟩ env "midi_in" "LCXL3 1 MIDI Out" PortType.input).1
     let r2 := MidiServer.open_port s1 env "midi_in" "No Such Device" PortType.input
     r2.2 = false ∧
       r2.1.lookupPort "midi_in" =
         some { port_name := "LCXL3 1 MIDI Out", port_type := PortType.input,
                has_midi_obj := true, port_index := some 0, queue := [],
                is_open := false }) := by
  constructor
  · rfl
  · rfl

/-- C2 amended: when the second open of an already-bound identifier
*succeeds*, it replaces the handle: the old handle is closed in place
(`is_open = false` on the object the registry used to hold) and the map entry
afterwards is exactly the newly constructed-and-opened handle, so the old
handle is unreachable via the registry.  When the second open fails, the old
(now closed) handle remains bound — see C10. -/
theorem reopen_success_replaces_handle (s : MidiServer) (env : HardwareEnv)
    (port_id port_name : String) (port_type : PortType) (old : MidiPort)
    (hold : s.lookupPort port_id = some old)
    (hobj : old.has_midi_obj = true)
    (hsucc : (s.open_port env port_id port_name port_type).2 = true) :
    old.closePort.is_open = false ∧
      (s.open_port env port_id port_name port_type).1.lookupPort port_id =
        ((MidiPort.new port_name port_type).openPort env).toOption ∧
      ∀ p, (MidiPort.new port_name port_type).openPort env = Except.ok p →
        p.is_open = true := by
  refine ⟨by simp [MidiPort.closePort, hobj], ?_, ?_⟩
  · unfold MidiServer.open_port at hsucc ⊢
    rw [hold] at hsucc ⊢
    cases hopen : (MidiPort.new port_name port_type).openPort env with
    | ok opened =>
      simp only [hopen, Except.toOption]
      exact lookupPort_setPort_self _ _ _
    | error e =>
      rw [hopen] at hsucc
      simp at hsucc
  · intro p hp
    cases hfind : findPortIndex (MidiPort.new port_name port_type).port_name
        (match (MidiPort.new port_name port_type).port_type with
          | PortType.input => env.inputs
          | PortType.output => env.outputs) 0 with
    | none =>
      simp only [MidiPort.openPort, hfind] at hp
      cases hp
    | some i =>
      simp only [MidiPort.openPort, hfind] at hp
      cases hp
      rfl

/-- Witness for C2 amended: re-opening `"midi_in"` (bound to an input matching
`"MIDI Out"`) with the name `"DAW Out"`, which matches other hardware,
succeeds; the entry becomes the new open handle bound to index 1. -/
theorem reopen_success_replaces_handle_witness :
    (let env : HardwareEnv := ⟨["LCXL3 1 MIDI Out", "LCXL3 1 DAW Out"], []⟩
     let old : MidiPort :=
       { port_name := "LCXL3 1 MIDI Out", port_type := PortType.input,
         has_midi_obj := true, port_index := some 0, queue := [], is_open := true }
     let s1 : MidiServer := ⟨[("midi_in", old)]⟩
     old.closePort.is_open = false ∧
       (s1.open_port env "midi_in" "DAW Out" PortType.input).1.lookupPort "midi_in" =
         ((MidiPort.new "DAW Out" PortType.input).openPort env).toOption ∧
       ∀ p, (MidiPort.new "DAW Out" PortType.input).openPort env = Except.ok p →
         p.is_open = true) :=
  reopen_success_replaces_handle _ _ _ _ _ _ rfl rfl rfl

/-- C10: when re-opening a bound identifier fails to resolve any hardware
port, the prior handle is not removed: `open_port` reports failure and the
registry still maps the identifier to the old handle, now closed, so a later
lookup finds a Closed handle rather than no entry. -/
theorem reopen_failure_keeps_closed_old_handle (s : MidiServer) (env : HardwareEnv)
    (port_id port_name : String) (port_type : PortType) (old : MidiPort)
    (hold : s.lookupPort port_id = some old)
    (hobj : old.has_midi_obj = true)
    (hfail : findPortIndex port_name
        (match port_type with
          | PortType.input => env.inputs
          | PortType.output => env.outputs) 0 = none) :
    (s.open_port env port_id port_name port_type).2 = false ∧
      (s.open_port env port_id port_name port_type).1.lookupPort port_id =
        some old.closePort ∧
      old.closePort.is_open = false := by
  have hopen : (MidiPort.new port_name port_type).openPort env =
      Except.error ("Port '" ++ port_name ++ "' not found") := by
    unfold MidiPort.openPort
    simp only [MidiPort.new]
    rw [hfail]
  refine ⟨?_, ?_, by simp [MidiPort.closePort, hobj]⟩
  · unfold MidiServer.open_port
    rw [hold, hopen]
  · unfold MidiServer.open_port
    rw [hold, hopen]
    exact lookupPort_setPort_self _ _ _

/-- Witness for C10: re-opening `"midi_in"` with a name matching no hardware
port fails and leaves the old handle bound and closed. -/
theorem reopen_failure_keeps_closed_old_handle_witness :
    (let env : HardwareEnv := ⟨["LCXL3 1 MIDI Out"], []⟩
     let old : MidiPort :=
       { port_name := "LCXL3 1 MIDI Out", port_type := PortType.input,
         has_midi_obj := true, port_index := some 0, queue := [], is_open := true }
     let s1 : MidiServer := ⟨[("midi_in", old)]⟩
     (s1.open_port env "midi_in" "No Such Device" PortType.input).2 = false ∧
       (s1.open_port env "midi_in" "No Such Device" PortType.input).1.lookupPort
           "midi_in" = some old.closePort ∧
       old.closePort.is_open = false) :=
  reopen_failure_keeps_closed_old_handle _ _ _ _ _ _ rfl rfl (by decide)

/-! ## Unknown identifiers at the façade (claim C8) -/

/-- C8: for an identifier with no registry entry, `send_message` returns
boolean failure and `get_messages` returns an empty message list (immediately,
at `start`); in both cases the registry — and with it every other handle — is
returned unchanged. -/
theorem unknown_port_weak_contract (s : MidiServer) (port_id : String)
    (message : Msg) (timeout start : Nat) (arrivals : List (Nat × Msg))
    (h : s.lookupPort port_id = none) :
    s.send_message port_id message = (s, false) ∧
      s.get_messages port_id timeout start arrivals = (s, [], start) := by
  constructor
  · unfold MidiServer.send_message
    rw [h]
  · unfold MidiServer.get_messages
    rw [h]

/-- Witness for C8: the empty registry has no entry for `"ghost"`. -/
theorem unknown_port_weak_contract_witness :
    MidiServer.send_message ⟨[]⟩ "ghost" [144, 60, 127] = (⟨[]⟩, false) ∧
      MidiServer.get_messages ⟨[]⟩ "ghost" 5 0 [] = (⟨[]⟩, [], 0) :=
  unknown_port_weak_contract ⟨[]⟩ "ghost" [144, 60, 127] 5 0 [] rfl

/-! ## The Message Router and timestamps (claim C5) -/

/-- Modelled from the spec's words (§4.3): the Message Router "appends
`(bytes, now())` to that port's inbox", so a spec-level inbox entry is a
`(bytes, receivedAt)` pair.  This definition exists only to be compared with
the code's `MidiPort.on_message`. -/
def routerSpecAppend (inbox : List (Msg × Nat)) (bytes : Msg) (now : Nat) :
    List (Msg × Nat) :=
  inbox ++ [(bytes, now)]

/-- C5 counterexample: the code's router stores no timestamp.  The spec-level
inbox distinguishes the same bytes received at times 7 and 99, but
`MidiPort._on_message` enqueues only `list(message)` — the entry is the bare
byte list `[144, 60, 127]`, identical for any timing data, so no queued
message carries a `receivedAt` timestamp. -/
theorem router_discards_timestamp_counterexample :
    routerSpecAppend [] [144, 60, 127] 7 ≠ routerSpecAppend [] [144, 60, 127] 99 ∧
      MidiPort.on_message [] ([144, 60, 127], 7) =
        MidiPort.on_message [] ([144, 60, 127], 99) ∧
      MidiPort.on_message [] ([144, 60, 127], 7) = [[144, 60, 127]] := by
  refine ⟨by decide, rfl, rfl⟩

/-- C5 amended: for every byte-frame delivered by the driver to an open input
port, the router appends the bare byte list (no timestamp) to that port's
inbox; over any sequence of deliveries the inbox holds exactly the byte lists
in arrival order. -/
theorem router_appends_bytes_in_order (q : List Msg) (events : List (Msg × Nat)) :
    events.foldl MidiPort.on_message q = q ++ events.map Prod.fst := by
  induction events generalizing q with
  | nil => simp
  | cons e rest ih =>
    simp only [List.foldl_cons, List.map_cons, ih, MidiPort.on_message]
    simp

/-! ## The registry lock during a drain (claim C9) -/

/-- The time at which `MidiServer.get_messages` releases `self.lock`.  In the
source the whole body — including the call
`self.ports[port_id].get_messages(timeout)` — sits inside the
`with self.lock:` block (the `return` exits the block), so the lock acquired
at `start` is released exactly when the inner drain returns. -/
def getMessagesLockReleaseTime (s : MidiServer) (port_id : String)
    (timeout start : Nat) (arrivals : List (Nat × Msg)) : Nat :=
  (s.get_messages port_id timeout start arrivals).2.2

/-- C9 counterexample: with an input port bound to `"midi_in"`, an empty
inbox, and a drain with timeout 10 entered at time 0, the registry lock is
released only at time `0 + 10` — it is held for the entire duration of the
drain's timeout, so concurrent `send` and open/close block on it for that
whole time. -/
theorem lock_held_for_drain_duration_counterexample :
    getMessagesLockReleaseTime
        ⟨[("midi_in",
           { port_name := "LCXL3 1 MIDI Out", port_type := PortType.input,
             has_midi_obj := true, port_index := some 0, queue := [],
             is_open := true })]⟩
        "midi_in" 10 0 [] = 0 + 10 := by
  rfl

/-- C9 amended: a blocked drain does not release the coarse lock: whenever the
identifier is bound and the timeout is positive, `MidiServer.get_messages`
holds the registry lock from `start` until the drain's deadline
`start + timeout`, so `send` and registry open/close on other threads can
block behind it for up to the full drain timeout. -/
theorem drain_holds_lock_until_deadline (s : MidiServer) (port_id : String)
    (timeout start : Nat) (arrivals : List (Nat × Msg)) (p : MidiPort)
    (hp : s.lookupPort port_id = some p) (ht : 0 < timeout) :
    getMessagesLockReleaseTime s port_id timeout start arrivals = start + timeout := by
  unfold getMessagesLockReleaseTime MidiServer.get_messages
  rw [hp]
  have ht0 : timeout ≠ 0 := Nat.pos_iff_ne_zero.mp ht
  simp only [getMessagesTimed, ht0, if_false]
  exact waitLoop_returns_at_deadline _ _

/-- Witness for C9 amended: a bound input port and timeout 7 at start 2. -/
theorem drain_holds_lock_until_deadline_witness :
    getMessagesLockReleaseTime
        ⟨[("daw_in",
           { port_name := "LCXL3 1 DAW Out", port_type := PortType.input,
             has_midi_obj := true, port_index := some 1, queue := [[248]],
             is_open := true })]⟩
        "daw_in" 7 2 [] = 2 + 7 :=
  drain_holds_lock_until_deadline _ _ 7 2 []
    { port_name := "LCXL3 1 DAW Out", port_type := PortType.input,
      has_midi_obj := true, port_index := some 1, queue := [[248]],
      is_open := true } rfl (by decide)

/-! ## The protocol test orchestrator `test_lcxl3` (claims C4 and C6)

Inside the orchestrator's `try` block, `open_port`, `send_message`,
`get_messages` and `time.sleep` cannot raise (the server methods catch
internally and return values; the orchestrator ignores the booleans).  The
only statements that can raise are the `resp[i]` list indexings in the three
reply-processing loops, which raise `IndexError` when a reply is shorter than
the accessed index.  The device's visible behaviour is therefore captured by
the reply lists each drain returns, given here as a `DeviceEnv`. -/

/-- Python `resp[i]`: the element when in range, `IndexError` otherwise. -/
def indexOrRaise (resp : Msg) (i : Nat) : Except String Nat :=
  match resp.get? i with
  | some v => Except.ok v
  | none => Except.error "IndexError: list index out of range"

/-- `''.join(chr(b) for b in bs)`. -/
def chrJoin (bs : List Nat) : String :=
  String.mk (bs.map (fun b => Char.ofNat b))

/-- Python `str.strip()`: remove leading and trailing whitespace. -/
def pyStrip (s : String) : String :=
  String.mk (((s.data.dropWhile Char.isWhitespace).reverse.dropWhile
    Char.isWhitespace).reverse)

/-- The handshake response loop (`for resp in responses:` at the `Testing
handshake` step): the first reply with `resp[0] == 0xF0 and len(resp) > 7`
yields one narrative with the serial decoded from `resp[7:-1]` (bytes < 128),
then `break`; `resp[0]` on an empty reply raises `IndexError`. -/
def processHandshake : List Msg → Except String (List String)
  | [] => Except.ok []
  | resp :: rest => do
      let b0 ← indexOrRaise resp 0
      if b0 = 240 ∧ resp.length > 7 then
        Except.ok ["Handshake OK - Serial: " ++
          chrJoin (((resp.drop 7).dropLast).filter (fun b => b < 128))]
      else processHandshake rest

/-- The slot-query loop (`for resp in daw_responses:`): the first reply with
`resp[0] == 0xB6 and resp[1] == 30` yields `current_slot = resp[2] - 6`, then
`break`.  `resp[0]` is unguarded (empty reply raises), and `resp[1]`/`resp[2]`
are evaluated without any length check once the earlier conjuncts hold, so a
reply `[0xB6]` or `[0xB6, 30]` raises `IndexError`. -/
def findCurrentSlot : List Msg → Except String (Option Int)
  | [] => Except.ok none
  | resp :: rest => do
      let b0 ← indexOrRaise resp 0
      if b0 = 182 then do
        let b1 ← indexOrRaise resp 1
        if b1 = 30 then do
          let b2 ← indexOrRaise resp 2
          Except.ok (some ((b2 : Int) - 6))
        else findCurrentSlot rest
      else findCurrentSlot rest

/-- Python `f"{x}"` for `current_slot : Optional[int]`. -/
def currentSlotStr : Option Int → String
  | none => "None"
  | some i => toString i

/-- The slot-read response loop: the first reply with `resp[0] == 0xF0 and
len(resp) > 20 and resp[8] == 0x10` breaks the loop, appending a narrative
only when additionally `len(resp) > 30`, with the name decoded from
`resp[14:30]` (printable bytes `32 <= b < 127`, then `.strip()`). -/
def processReadReplies (slot : Nat) (current : Option Int) :
    List Msg → Except String (List String)
  | [] => Except.ok []
  | resp :: rest => do
      let b0 ← indexOrRaise resp 0
      if b0 = 240 ∧ resp.length > 20 then do
        let b8 ← indexOrRaise resp 8
        if b8 = 16 then
          if resp.length > 30 then
            Except.ok ["Slot " ++ toString slot ++ ": current=" ++
              currentSlotStr current ++ ", read_name='" ++
              pyStrip (chrJoin (((resp.drop 14).take 16).filter
                (fun b => 32 ≤ b ∧ b < 127))) ++ "'"]
          else Except.ok []
        else processReadReplies slot current rest
      else processReadReplies slot current rest

/-- The device replies visible at each drain point of one orchestrator run:
the handshake drain of `midi_in`, and per slot 0, 1, 2 the drain of `daw_in`
(slot query) and of `midi_in` (slot read). -/
structure DeviceEnv where
  handshakeReplies : List Msg
  dawReplies : List (List Msg)
  readReplies : List (List Msg)
deriving DecidableEq, Repr

/-- One iteration of `for slot in range(3):`: interpret the drained DAW
replies, then the drained read replies. -/
def slotIteration (env : DeviceEnv) (slot : Nat) : Except String (List String) := do
  let current ← findCurrentSlot (env.dawReplies.getD slot [])
  processReadReplies slot current (env.readReplies.getD slot [])

/-- The observable outcome of `test_lcxl3`: the `success` flag and `results`
of the JSON response, the ports closed by the cleanup step, and the reported
error, if any. -/
structure TestOutcome where
  success : Bool
  results : List String
  closedPorts : List String
  errorMsg : Option String
deriving DecidableEq, Repr

/-- The four `close_port` calls of the cleanup step, in order. -/
def cleanupPorts : List String := ["midi_out", "midi_in", "daw_out", "daw_in"]

/-- The body of the orchestrator's `try` block up to the cleanup step: the
handshake loop, then the three slot iterations, accumulating `results`. -/
def testBody (env : DeviceEnv) : Except String (List String) := do
  let r1 ← processHandshake env.handshakeReplies
  let r2 ← slotIteration env 0
  let r3 ← slotIteration env 1
  let r4 ← slotIteration env 2
  Except.ok (r1 ++ r2 ++ r3 ++ r4)

/-- Embedding of `test_lcxl3`: when the `try` body completes, the four
`close_port` calls run and `{'success': True, 'results': results}` is
returned; when any statement raises, control jumps straight to
`except Exception` — textually *after* the close calls — which returns
`{'success': False, 'error': str(e)}` with status 500, closing nothing. -/
def test_lcxl3 (env : DeviceEnv) : TestOutcome :=
  match testBody env with
  | Except.ok rs =>
      { success := true, results := rs, closedPorts := cleanupPorts, errorMsg := none }
  | Except.error e =>
      { success := false, results := [], closedPorts := [], errorMsg := some e }

/-- Run aborted by a malformed slot-0 query reply `[0xB6]`: `resp[1]` raises. -/
def envShortReply : DeviceEnv := ⟨[], [[[182]]], []⟩

/-- C4 counterexample: with the device answering the slot-0 query with the
single byte `0xB6`, the run fails — and the cleanup step never executes: no
port is closed before the failure is reported. -/
theorem cleanup_skipped_on_failure_counterexample :
    (test_lcxl3 envShortReply).success = false ∧
      (test_lcxl3 envShortReply).closedPorts = [] := by
  exact ⟨rfl, rfl⟩

/-- C4 amended: the cleanup step closes all four ports exactly when the
scripted sequence raises no exception; a failure reported through the
top-level handler skips cleanup entirely, closing no port. -/
theorem cleanup_iff_no_exception (env : DeviceEnv) :
    (test_lcxl3 env).closedPorts =
      if (test_lcxl3 env).success then cleanupPorts else [] := by
  unfold test_lcxl3
  cases testBody env <;> simp

/-- Run with slot 1's device replies deliberately omitted and slots 0 and 2
answered fully (query reply `0xB6 30 <slot+6>`, read reply a 31-byte SysEx
frame with type byte `0x10` and name field `'A'`). -/
def envSlot1Omitted : DeviceEnv :=
  ⟨[],
   [[[182, 30, 6]], [], [[182, 30, 8]]],
   [[[240, 0, 0, 0, 0, 0, 0, 0, 16, 0, 0, 0, 0, 0, 65,
      32, 32, 32, 32, 32, 32, 32, 32, 32, 32, 32, 32, 32, 32, 32, 247]],
    [],
    [[240, 0, 0, 0, 0, 0, 0, 0, 16, 0, 0, 0, 0, 0, 65,
      32, 32, 32, 32, 32, 32, 32, 32, 32, 32, 32, 32, 32, 32, 32, 247]]]⟩

/-- Run in which slot 1's query reply is the truncated frame `[0xB6]` while
slot 2 would answer fully. -/
def envSlot1Short : DeviceEnv :=
  ⟨[],
   [[], [[182]], [[182, 30, 8]]],
   [[], [],
    [[240, 0, 0, 0, 0, 0, 0, 0, 16, 0, 0, 0, 0, 0, 65,
      32, 32, 32, 32, 32, 32, 32, 32, 32, 32, 32, 32, 32, 32, 32, 247]]]⟩

/-- C6 counterexample: a reply too short to carry the controller byte does
raise and does abort the run.  With slot 1's query answered by `[0xB6]`, the
run fails with no results at all — even though slot 2, had the loop reached
it, would have contributed the narrative shown in the last conjunct.  The
slot's entry is not "simply absent": the whole run aborts and slot 2 is never
attempted. -/
theorem slot_loop_short_reply_aborts_counterexample :
    (test_lcxl3 envSlot1Short).success = false ∧
      (test_lcxl3 envSlot1Short).results = [] ∧
      slotIteration envSlot1Short 2 =
        Except.ok ["Slot 2: current=2, read_name='A'"] := by
  refine ⟨rfl, rfl, ?_⟩
  rfl

/-- C6 amended: a *missing* reply for a slot is tolerated: if slot 1's drains
return no messages, its iteration contributes no entry and no exception, and
whenever the handshake and the other two slot iterations complete with results
`r1`, `r2`, `r4`, the whole run succeeds with exactly those narratives and
full cleanup.  (Malformed replies are tolerated only when they fail a guard
byte; a reply passing a guard but too short for the next index aborts the
run — see the counterexample.) -/
theorem slot_loop_tolerates_omitted_reply (env : DeviceEnv)
    (h1 : env.dawReplies.getD 1 [] = []) (h2 : env.readReplies.getD 1 [] = [])
    (r1 r2 r4 : List String)
    (hh : processHandshake env.handshakeReplies = Except.ok r1)
    (h0 : slotIteration env 0 = Except.ok r2)
    (h4 : slotIteration env 2 = Except.ok r4) :
    slotIteration env 1 = Except.ok [] ∧
      test_lcxl3 env =
        { success := true, results := r1 ++ r2 ++ [] ++ r4,
          closedPorts := cleanupPorts, errorMsg := none } := by
  have hmid : slotIteration env 1 = Except.ok [] := by
    unfold slotIteration
    rw [h1, h2]
    rfl
  refine ⟨hmid, ?_⟩
  unfold test_lcxl3 testBody
  rw [hh, h0, hmid, h4]
  rfl

/-- Witness for C6 amended: slot 1 omitted, slots 0 and 2 fully answered —
two narratives, success, cleanup. -/
theorem slot_loop_tolerates_omitted_reply_witness :
    slotIteration envSlot1Omitted 1 = Except.ok [] ∧
      test_lcxl3 envSlot1Omitted =
        { success := true,
          results := [] ++ ["Slot 0: current=0, read_name='A'"] ++ [] ++
            ["Slot 2: current=2, read_name='A'"],
          closedPorts := cleanupPorts, errorMsg := none } :=
  slot_loop_tolerates_omitted_reply envSlot1Omitted rfl rfl
    [] ["Slot 0: current=0, read_name='A'"] ["Slot 2: current=2, read_name='A'"]
    rfl rfl rfl

end MidiServerModel
